import Mathlib

/-!
Verification of the browser front end for the hate-speech detection model.

The repository holds two script files: `src/unnamed/part_000` (the richer
implementation, namespace `P0` below) and `src/app.js` (the minimal one,
namespace `AppJs` below).  Both submit user text to a moderation endpoint
with `fetch`, enforce a client-side timeout through an `AbortController`,
and render the classification into DOM elements.

The embedding below models:
  * parsed JSON bodies as an inductive `Json` value
    (JavaScript `undefined` is `Option.none` at access sites);
  * the single network exchange as a `TransportEvent` (a response arriving
    at a given millisecond, a transport failure at a given millisecond, or
    no reply at all), interpreted against the abort timer that each
    `analyzeText` arms;
  * thrown JavaScript errors as `JsError` (name and message);
  * the DOM elements the scripts mutate as a `UIState` record.

Notes on fidelity kept throughout: string lengths count characters (JS
counts UTF-16 units); the decorative HTML wrappers of the verdict text are
elided, keeping the visible message text; the Chromium messages are used
for the built-in fetch/abort errors.
-/

/-- A parsed JSON value.  JavaScript `undefined` never appears inside a
parsed body, so it is not a constructor; property access returns
`Option Json` with `none` standing for `undefined`. -/
inductive Json where
  | null : Json
  | bool (b : Bool) : Json
  | num (q : ℚ) : Json
  | str (s : String) : Json
  | arr (xs : List Json) : Json
  | obj (fields : List (String × Json)) : Json

/-- A thrown JavaScript error value: its `name` and `message`. -/
structure JsError where
  name : String
  message : String
deriving DecidableEq

/-- JavaScript falsiness of a defined value: `null`, `false`, `0` and the
empty string are falsy; every array and object is truthy. -/
def jsFalsy : Json → Bool
  | Json.null => true
  | Json.bool b => !b
  | Json.num q => decide (q.num = 0)
  | Json.str s => decide (s = "")
  | Json.arr _ => false
  | Json.obj _ => false

/-- Falsiness of a possibly-`undefined` value (`undefined` is falsy). -/
def optFalsy : Option Json → Bool
  | none => true
  | some j => jsFalsy j

/-- Truthiness of a possibly-`undefined` value. -/
def optTruthy (o : Option Json) : Bool := !optFalsy o

/-- Property access `v.k` on a defined, non-null value: object field
lookup; any other receiver yields `undefined`.  (Built-in properties such
as `"abc".length` are not used by the scripts and are not modelled.) -/
def jsGet : Json → String → Option Json
  | Json.obj fields, k => fields.lookup k
  | _, _ => none

/-- Index access `v[i]` with a numeric literal index on a defined,
non-null value: array element, object field named by the index, or the
one-character string for a string receiver. -/
def jsIndex : Json → Nat → Option Json
  | Json.arr xs, i => xs.get? i
  | Json.obj fields, i => fields.lookup (toString i)
  | Json.str s, i =>
      match s.data.get? i with
      | some c => some (Json.str (String.mk [c]))
      | none => none
  | _, _ => none

/-- Property access on a possibly-`undefined`, possibly-`null` receiver:
accessing a property of `undefined` or `null` throws a `TypeError`. -/
def jsGetOpt : Option Json → String → Except JsError (Option Json)
  | none, k =>
      Except.error ⟨"TypeError", s!"Cannot read properties of undefined (reading {k})"⟩
  | some Json.null, k =>
      Except.error ⟨"TypeError", s!"Cannot read properties of null (reading {k})"⟩
  | some j, k => Except.ok (jsGet j k)

/-- Whether `pat` is a prefix of `l` (character lists). -/
def charsHaveStart : List Char → List Char → Bool
  | [], _ => true
  | _ :: _, [] => false
  | p :: ps, c :: cs => p == c && charsHaveStart ps cs

/-- Whether `pat` occurs inside `l` (character lists). -/
def charsInclude (pat : List Char) : List Char → Bool
  | [] => pat.isEmpty
  | c :: cs => charsHaveStart pat (c :: cs) || charsInclude pat cs

/-- JavaScript `s.includes(pat)`. -/
def strIncludes (s pat : String) : Bool := charsInclude pat.data s.data

/-- JavaScript `String.prototype.trim`: drop whitespace from both ends. -/
def jsTrim (s : String) : String :=
  String.mk (((s.data.dropWhile Char.isWhitespace).reverse.dropWhile
    Char.isWhitespace).reverse)

/-- Numeric value of a digit list (most significant first). -/
def digitsVal (cs : List Char) : Nat :=
  cs.foldl (fun a c => a * 10 + (c.toNat - 48)) 0

/-- Plain decimal literal parser: optional sign, integer digits, optional
fraction.  Covers the decimal forms of the JS `ToNumber` string grammar;
exponents and hex forms (which cannot arise from the scores handled here)
are not modelled and yield `NaN`. -/
def parseDecimal (cs : List Char) : Option ℚ :=
  let signRest : Int × List Char :=
    match cs with
    | '-' :: r => (-1, r)
    | '+' :: r => (1, r)
    | r => (1, r)
  let sign := signRest.1
  let rest := signRest.2
  let ip := rest.takeWhile Char.isDigit
  let rest2 := rest.dropWhile Char.isDigit
  match rest2 with
  | [] => if ip.isEmpty then none else some (mkRat (sign * (digitsVal ip : Int)) 1)
  | '.' :: fr =>
      if fr.all Char.isDigit && !(ip.isEmpty && fr.isEmpty) then
        some (mkRat
          (sign * ((digitsVal ip : Int) * ((10 : Int) ^ fr.length) + (digitsVal fr : Int)))
          (10 ^ fr.length))
      else none
  | _ => none

/-- JS `ToNumber` of a possibly-`undefined` value, with `none` standing
for `NaN`: `undefined → NaN`, `null → 0`, booleans to `0`/`1`, strings via
the decimal literal grammar (empty/whitespace-only strings give `0`), the
empty array gives `0`; other arrays and plain objects give `NaN`
(one-element-array coercion, which goes through a string round-trip, is
not modelled). -/
def toNumber : Option Json → Option ℚ
  | none => none
  | some Json.null => some (mkRat 0 1)
  | some (Json.bool b) => some (if b then mkRat 1 1 else mkRat 0 1)
  | some (Json.num q) => some q
  | some (Json.str s) =>
      let t := jsTrim s
      if t = "" then some (mkRat 0 1) else parseDecimal t.data
  | some (Json.arr []) => some (mkRat 0 1)
  | some (Json.arr (_ :: _)) => none
  | some (Json.obj _) => none

/-- Multiplicity of the prime `p` in `n`, with fuel (`n` itself bounds
the multiplicity, so calling with fuel `n` is exact). -/
def countFactor (p : Nat) : Nat → Nat → Nat
  | 0, _ => 0
  | fuel + 1, n => if 1 < n && n % p = 0 then countFactor p fuel (n / p) + 1 else 0

/-- The ECMA `Number::toString` layout for a positive value given by its
significant decimal digits `s` (no leading or trailing zeros, `k` of
them) and the position `n` of the decimal point (`value = 0.s × 10^n`):
plain integer form, plain point form, leading-zeros form, or exponential
form with exponent `n - 1`. -/
def ecmaDigitsToString (s : List Char) (k : Nat) (n : Int) : String :=
  if (k : Int) ≤ n ∧ n ≤ 21 then
    String.mk s ++ String.mk (List.replicate (n - (k : Int)).toNat '0')
  else if 0 < n ∧ n ≤ 21 then
    String.mk (s.take n.toNat) ++ "." ++ String.mk (s.drop n.toNat)
  else if -6 < n ∧ n ≤ 0 then
    "0." ++ String.mk (List.replicate (-n).toNat '0') ++ String.mk s
  else
    let e := n - 1
    let eStr := (if 0 ≤ e then "+" else "-") ++ toString e.natAbs
    if k = 1 then String.mk s ++ "e" ++ eStr
    else String.mk (s.take 1) ++ "." ++ String.mk (s.drop 1) ++ "e" ++ eStr

/-- Rendering of a JSON number by JS `String()`: the exact decimal
expansion (denominators of the form `2^a 5^b` — every finite double is
`m / 2^e`, so every value a parsed body can hold terminates), laid out by
the ECMA rules, including the exponential forms beyond `1e21` and below
`1e-6`.  This agrees with the ECMA shortest-round-trip output whenever
the stored rational is the shortest decimal denoting its double, which
holds for ordinary short literals; longer literals are already idealized
by the exact-rational `Json.num` model.  A denominator with another
prime factor is unreachable from any double and falls back to
`num/den`. -/
def ratToJsString (q : ℚ) : String :=
  if q.num = 0 then "0"
  else
    let sign := if q.num < 0 then "-" else ""
    let c2 := countFactor 2 q.den q.den
    let c5 := countFactor 5 q.den q.den
    if q.den = 2 ^ c2 * 5 ^ c5 then
      let K := max c2 c5
      let scaled := q.num.natAbs * (10 ^ K / q.den)
      let ds := (toString scaled).data
      let L := ds.length
      let z := (ds.reverse.takeWhile (fun c => c == '0')).length
      sign ++ ecmaDigitsToString (ds.take (L - z)) (L - z) ((L : Int) - (K : Int))
    else toString q.num ++ "/" ++ toString q.den

/-- JS `String()` of a non-array value (arrays are dispatched to the
recursive join by both callers and never reach this function). -/
def jsToStringAtom : Json → String
  | Json.null => "null"
  | Json.bool true => "true"
  | Json.bool false => "false"
  | Json.num q => ratToJsString q
  | Json.str s => s
  | Json.arr _ => ""
  | Json.obj _ => "[object Object]"

/-- JS stringification of an array element inside `Array.prototype.join`:
a `null` element renders as the empty string, a nested array joins its
own elements recursively (so `String([[1,2]]) = "1,2"`), and any other
element is stringified as usual. -/
def jsArrElemString : Json → String
  | Json.null => ""
  | Json.arr ys => String.intercalate "," (ys.attach.map (fun x => jsArrElemString x.1))
  | j => jsToStringAtom j
termination_by j => sizeOf j
decreasing_by
  simp_wf
  have := List.sizeOf_lt_of_mem x.2
  omega

/-- JS `String(v)` as applied by the `Error` constructor to its message
argument: arrays render as their comma join, everything else as the
scalar rendering. -/
def jsToString : Json → String
  | Json.arr xs => String.intercalate "," (xs.map jsArrElemString)
  | j => jsToStringAtom j

/-- `Math.round (q * 100)` computed exactly on the rational `q`: the
floor of `100 q + 1/2`, that is `⌊(200 num + den) / (2 den)⌋`. -/
def jsRoundTimes100 (q : ℚ) : Int :=
  Int.fdiv (200 * q.num + (q.den : Int)) (2 * (q.den : Int))

/-- `Math.round (v * 100)` on a possibly-`NaN` value (`none` is `NaN`). -/
def jsPercent (o : Option ℚ) : Option Int := o.map jsRoundTimes100

/-- `Math.max` with a constant second argument; `NaN` propagates. -/
def jsMax (o : Option Int) (b : Int) : Option Int := o.map (fun z => max z b)

/-- Strict `>` against a constant; false on `NaN`. -/
def optGT (o : Option Int) (b : Int) : Bool :=
  match o with
  | none => false
  | some z => decide (b < z)

/-- Template rendering of a possibly-`NaN` integer. -/
def numDisplay : Option Int → String
  | none => "NaN"
  | some z => toString z

/-- An HTTP response as observed by the scripts: its status code and its
parsed JSON body (`none` when the body is absent or not valid JSON, in
which case `response.json()` rejects with a `SyntaxError`). -/
structure Response where
  status : Nat
  body : Option Json

/-- `response.ok`: status in the 200–299 range. -/
def respOk (r : Response) : Bool :=
  decide (200 ≤ r.status) && decide (r.status ≤ 299)

/-- What the network does on the single request a call issues: the
response arrives `t` milliseconds after the request is sent, or the
transport fails after `t` milliseconds, or no reply ever comes. -/
inductive TransportEvent where
  | arrives (t : Nat) (resp : Response) : TransportEvent
  | netFail (t : Nat) : TransportEvent
  | never : TransportEvent

/-- Whether the abort timer armed with bound `timeout` fires while the
request is still in flight (cutting it off), for a given event. -/
def evAborted (timeout : Nat) : TransportEvent → Bool
  | TransportEvent.arrives t _ => decide (timeout ≤ t)
  | TransportEvent.netFail t => decide (timeout ≤ t)
  | TransportEvent.never => true

/-- Outcome of one `analyzeText` call: the value returned or the error
thrown, whether the in-flight request was aborted by the timer, and the
text carried in the request body `{"text": ...}`. -/
structure FetchRun where
  result : Except JsError Json
  aborted : Bool
  requestText : String

/-- Chromium `AbortError` raised by `fetch` when the controller aborts. -/
def abortError : JsError := ⟨"AbortError", "The user aborted a request."⟩

/-- Chromium `TypeError` raised by `fetch` on a transport failure. -/
def fetchFailError : JsError := ⟨"TypeError", "Failed to fetch"⟩

/-- `SyntaxError` raised by `response.json()` on an unparsable body. -/
def jsonSyntaxError : JsError := ⟨"SyntaxError", "Unexpected end of JSON input"⟩

namespace CONFIG

/-- `CONFIG.BACKEND_URL` of `src/unnamed/part_000`. -/
def BACKEND_URL : String := "https://hate-speach-detection-model.onrender.com/analyze"

/-- `CONFIG.MAX_INPUT_LENGTH` of `src/unnamed/part_000`. -/
def MAX_INPUT_LENGTH : Nat := 2000

/-- `CONFIG.REQUEST_TIMEOUT` of `src/unnamed/part_000` (milliseconds). -/
def REQUEST_TIMEOUT : Nat := 30000

end CONFIG

/-- The message thrown for a non-ok response once the `error` field has
been read off the parsed error body (`src/unnamed/part_000`, line 127):
`errorData.error || "Server error: <status>"`, with the `Error`
constructor stringifying a truthy non-string value. -/
def serverErrorMessage (v : Option Json) (status : Nat) : String :=
  match v with
  | some w => if jsFalsy w then "Server error: " ++ toString status else jsToString w
  | none => "Server error: " ++ toString status

/-- One category bar element: its `style.width`, its text content, and its
`style.backgroundColor`. -/
structure Bar where
  width : String
  text : String
  backgroundColor : String
deriving DecidableEq

/-- The five category bar elements; `none` models a missing DOM element
(both scripts guard against it). -/
structure Bars where
  hate : Option Bar
  harassment : Option Bar
  selfHarm : Option Bar
  sexual : Option Bar
  violence : Option Bar
deriving DecidableEq

/-- The DOM state the scripts mutate.  `loaderDisplay` and
`resultBoxDisplay` hold the `style.display` values; `verdict` holds the
visible text placed in the verdict element (the decorative HTML wrapper of
the richer script is elided); `buttonHTML` holds the analyze button label
(the spinner markup is elided to its visible text). -/
structure UIState where
  loaderDisplay : String
  buttonDisabled : Bool
  buttonHTML : String
  verdict : String
  resultBoxDisplay : String
  bars : Bars
deriving DecidableEq

/-- Outcome of one click-handler run: the final DOM state, the `alert`
calls issued, whether `analyzeText` (the network call) was invoked, and
the text submitted when it was. -/
structure ClickResult where
  ui : UIState
  alerts : List String
  networkCalled : Bool
  sentText : Option String
deriving DecidableEq

namespace P0

/-- Verdict text of `displayVerdict` for flagged content
(`src/unnamed/part_000`, lines 185–190; styling wrapper elided). -/
def harmfulVerdict : String := "🚨 Potentially Harmful Content Detected"

/-- Verdict text of `displayVerdict` for safe content
(`src/unnamed/part_000`, lines 191–196; styling wrapper elided). -/
def safeVerdict : String := "✅ Content Appears Safe"

/-- The error thrown by `processApiResponse` on a malformed body
(`src/unnamed/part_000`, line 153).  This is the spec's
`MalformedResponseError`. -/
def invalidFormatError : JsError := ⟨"Error", "Invalid response format from server"⟩

/-- The error `analyzeText` rethrows when the abort timer fired
(`src/unnamed/part_000`, line 136).  This is the spec's `TimeoutError`. -/
def timeoutError : JsError :=
  ⟨"Error", "Request timeout. The server took too long to respond. Please try again."⟩

/-- The error `analyzeText` rethrows on a transport failure
(`src/unnamed/part_000`, line 140).  This is the spec's
`ConnectivityError`. -/
def connectError : JsError :=
  ⟨"Error", "Cannot connect to server. Please check your internet connection."⟩

/-- Lines 126–127 of `src/unnamed/part_000`: parse the non-ok body
(`.catch(() => ({}))` replaces an unparsable body with `{}`; a body that
is the valid JSON literal `null` parses successfully), then read
`errorData.error` — which throws a `TypeError` when `errorData` is
`null` — and throw an `Error` carrying the server-supplied or the
generic status-derived message. -/
def serverThrow (body : Option Json) (status : Nat) : Except JsError Json :=
  let errorData := body.getD (Json.obj [])
  match jsGetOpt (some errorData) "error" with
  | Except.error e => Except.error e
  | Except.ok v => Except.error ⟨"Error", serverErrorMessage v status⟩

/-- The body of the `try` block of `analyzeText`
(`src/unnamed/part_000`, lines 112–130): await the fetch against the
armed abort timer, then branch on `response.ok`. -/
def fetchTry : TransportEvent → Except JsError Json
  | TransportEvent.arrives t resp =>
      if t < CONFIG.REQUEST_TIMEOUT then
        if respOk resp then
          match resp.body with
          | some j => Except.ok j
          | none => Except.error jsonSyntaxError
        else
          serverThrow resp.body resp.status
      else Except.error abortError
  | TransportEvent.netFail t =>
      if t < CONFIG.REQUEST_TIMEOUT then Except.error fetchFailError
      else Except.error abortError
  | TransportEvent.never => Except.error abortError

/-- `analyzeText` of `src/unnamed/part_000`, lines 108–145: the `try`
body above composed with the `catch` block, which maps an `AbortError` to
the timeout message, a message containing `Failed to fetch` to the
connectivity message, and rethrows anything else. -/
def analyzeText (text : String) (ev : TransportEvent) : FetchRun :=
  let result : Except JsError Json :=
    match fetchTry ev with
    | Except.ok j => Except.ok j
    | Except.error e =>
        if e.name = "AbortError" then Except.error timeoutError
        else if strIncludes e.message "Failed to fetch" then Except.error connectError
        else Except.error e
  { result := result
    aborted := evAborted CONFIG.REQUEST_TIMEOUT ev
    requestText := text }

/-- `updateCategoryBar` of `src/unnamed/part_000`, lines 200–227. -/
def updateCategoryBar (element : Option Bar) (score flagged : Option Json) : Option Bar :=
  match element with
  | none => none
  | some bar =>
      let percentage := jsPercent (toNumber score)
      let base := { bar with width := numDisplay (jsMax percentage 2) ++ "%" }
      if optTruthy flagged then
        some { base with
          text := "⚠️ " ++ numDisplay percentage ++ "% - FLAGGED"
          backgroundColor := "#ef4444" }
      else if optGT percentage 50 then
        some { base with
          text := numDisplay percentage ++ "% - High Risk"
          backgroundColor := "#f59e0b" }
      else if optGT percentage 20 then
        some { base with
          text := numDisplay percentage ++ "% - Medium"
          backgroundColor := "#fbbf24" }
      else
        some { base with
          text := numDisplay percentage ++ "% - Low"
          backgroundColor := "#10b981" }

/-- `processApiResponse` of `src/unnamed/part_000`, lines 150–179: guard
`!data || !data.results || !data.results[0]`, then read `flagged`,
`categories` and `category_scores` off `results[0]`, display the verdict,
and update the five bars (each `scores.x` / `categories.x` access throws
a `TypeError` when the receiver is `undefined`). -/
def processApiResponse (data : Json) (ui : UIState) : Except JsError UIState :=
  if jsFalsy data then Except.error invalidFormatError
  else
    match jsGet data "results" with
    | none => Except.error invalidFormatError
    | some results =>
        if jsFalsy results then Except.error invalidFormatError
        else
          match jsIndex results 0 with
          | none => Except.error invalidFormatError
          | some result =>
              if jsFalsy result then Except.error invalidFormatError
              else
                let flagged := jsGet result "flagged"
                let categories := jsGet result "categories"
                let scores := jsGet result "category_scores"
                let ui1 := { ui with
                  verdict := if optTruthy flagged then harmfulVerdict else safeVerdict }
                do
                  let sHate ← jsGetOpt scores "hate"
                  let cHate ← jsGetOpt categories "hate"
                  let bars1 := { ui1.bars with
                    hate := updateCategoryBar ui1.bars.hate sHate cHate }
                  let sHar ← jsGetOpt scores "harassment"
                  let cHar ← jsGetOpt categories "harassment"
                  let bars2 := { bars1 with
                    harassment := updateCategoryBar bars1.harassment sHar cHar }
                  let sSelf ← jsGetOpt scores "self-harm"
                  let cSelf ← jsGetOpt categories "self-harm"
                  let bars3 := { bars2 with
                    selfHarm := updateCategoryBar bars2.selfHarm sSelf cSelf }
                  let sSex ← jsGetOpt scores "sexual"
                  let cSex ← jsGetOpt categories "sexual"
                  let bars4 := { bars3 with
                    sexual := updateCategoryBar bars3.sexual sSex cSex }
                  let sViol ← jsGetOpt scores "violence"
                  let cViol ← jsGetOpt categories "violence"
                  let bars5 := { bars4 with
                    violence := updateCategoryBar bars4.violence sViol cViol }
                  Except.ok { ui1 with bars := bars5, resultBoxDisplay := "block" }

/-- `showLoader` of `src/unnamed/part_000`, lines 229–231. -/
def showLoader (visible : Bool) (ui : UIState) : UIState :=
  { ui with loaderDisplay := if visible then "block" else "none" }

/-- `setButtonState` of `src/unnamed/part_000`, lines 233–246 (spinner
markup elided to its visible label). -/
def setButtonState (analyzing : Bool) (ui : UIState) : UIState :=
  if analyzing then { ui with buttonDisabled := true, buttonHTML := "Analyzing..." }
  else { ui with buttonDisabled := false, buttonHTML := "Analyze Text" }

/-- `resetUI` of `src/unnamed/part_000`, lines 248–260. -/
def resetUI (ui : UIState) : UIState :=
  let resetBar : Option Bar → Option Bar :=
    Option.map (fun b =>
      { b with width := "0%", text := "", backgroundColor := "#cbd5e1" })
  { ui with
    verdict := ""
    resultBoxDisplay := "none"
    bars := { hate := resetBar ui.bars.hate
              harassment := resetBar ui.bars.harassment
              selfHarm := resetBar ui.bars.selfHarm
              sexual := resetBar ui.bars.sexual
              violence := resetBar ui.bars.violence } }

/-- Tip appended by `handleError` for messages containing `timeout`
(`src/unnamed/part_000`, line 270). -/
def timeoutTip : String :=
  "\n\n💡 Tip: The backend might be sleeping (Render free tier). Please wait 30 seconds and try again."

/-- Tip appended by `handleError` for messages containing `connect`
(`src/unnamed/part_000`, line 272). -/
def connectTip : String :=
  "\n\n💡 Tip: Check if the backend URL is correct and the server is running."

/-- `handleError` of `src/unnamed/part_000`, lines 265–281 (the styled
`div` wrapper around the message is elided). -/
def handleError (e : JsError) (ui : UIState) : UIState :=
  let message := "⚠️ Error: " ++ e.message
  let message :=
    if strIncludes e.message "timeout" then message ++ timeoutTip
    else if strIncludes e.message "connect" then message ++ connectTip
    else message
  { ui with verdict := message, resultBoxDisplay := "block" }

/-- The validation alert for empty input
(`src/unnamed/part_000`, line 76). -/
def emptyAlert : String := "Please enter some text to analyze."

/-- The validation alert for over-long input
(`src/unnamed/part_000`, line 81). -/
def tooLongAlert : String :=
  let n := CONFIG.MAX_INPUT_LENGTH
  s!"Text is too long. Maximum {n} characters allowed."

/-- `handleAnalyzeClick` of `src/unnamed/part_000`, lines 71–103: trim,
validate (alert and return on failure), then show the loader, reset the
UI, disable the button, run `analyzeText`, feed the result through
`processApiResponse` with thrown errors going to `handleError`, and in
`finally` hide the loader and re-enable the button. -/
def handleAnalyzeClick (inputValue : String) (ev : TransportEvent) (ui : UIState) :
    ClickResult :=
  let text := jsTrim inputValue
  if text = "" then
    { ui := ui, alerts := [emptyAlert], networkCalled := false, sentText := none }
  else if text.length > CONFIG.MAX_INPUT_LENGTH then
    { ui := ui, alerts := [tooLongAlert], networkCalled := false, sentText := none }
  else
    let ui1 := setButtonState true (resetUI (showLoader true ui))
    let run := analyzeText text ev
    let ui2 :=
      match run.result with
      | Except.ok data =>
          match processApiResponse data ui1 with
          | Except.ok u => u
          | Except.error e => handleError e ui1
      | Except.error e => handleError e ui1
    let ui3 := setButtonState false (showLoader false ui2)
    { ui := ui3, alerts := [], networkCalled := true, sentText := some text }

/-- The `input` listener of `initializeEventListeners`
(`src/unnamed/part_000`, lines 60–65): truncate the textarea value with
`substring(0, MAX_INPUT_LENGTH)` whenever it exceeds the maximum. -/
def handleInput (value : String) : String :=
  if value.length > CONFIG.MAX_INPUT_LENGTH then
    String.mk (value.data.take CONFIG.MAX_INPUT_LENGTH)
  else value

end P0

namespace AppJs

/-- The timeout bound hard-coded in `src/app.js`, line 54 (milliseconds). -/
def TIMEOUT_MS : Nat := 10000

/-- `analyzeText` of `src/app.js`, lines 52–72: same fetch/abort shape as
the richer script but with a 10000 ms timer, no `try`/`catch` (so the raw
`AbortError` / `TypeError` propagates), and a single constant message on a
non-ok status with the body never read. -/
def analyzeText (text : String) (ev : TransportEvent) : FetchRun :=
  let result : Except JsError Json :=
    match ev with
    | TransportEvent.arrives t resp =>
        if t < TIMEOUT_MS then
          if respOk resp then
            match resp.body with
            | some j => Except.ok j
            | none => Except.error jsonSyntaxError
          else Except.error ⟨"Error", "Backend request failed"⟩
        else Except.error abortError
    | TransportEvent.netFail t =>
        if t < TIMEOUT_MS then Except.error fetchFailError
        else Except.error abortError
    | TransportEvent.never => Except.error abortError
  { result := result, aborted := evAborted TIMEOUT_MS ev, requestText := text }

/-- `updateCategory` of `src/app.js`, lines 102–107: width and text from
the boolean category flag; the background color is untouched. -/
def updateCategory (element : Option Bar) (value : Option Json) : Option Bar :=
  element.map (fun b =>
    { b with
      width := if optTruthy value then "100%" else "5%"
      text := if optTruthy value then "Detected" else "Clean" })

/-- `processApiResponse` of `src/app.js`, lines 77–97: on a body failing
the `!data.results || !data.results[0]` guard it sets an error verdict and
returns normally (no throw); otherwise it renders the verdict from
`flagged` and the five bars from the boolean `categories` flags.  There
is no `!data` check, so a `null` body throws a `TypeError` at
`data.results`, and a missing `categories` object throws at
`result.categories.hate`. -/
def processApiResponse (data : Json) (ui : UIState) : Except JsError UIState :=
  match jsGetOpt (some data) "results" with
  | Except.error e => Except.error e
  | Except.ok results? =>
      if optFalsy results? then
        Except.ok { ui with verdict := "Invalid response from server." }
      else
        match results? with
        | none => Except.ok { ui with verdict := "Invalid response from server." }
        | some results =>
            match jsIndex results 0 with
            | none => Except.ok { ui with verdict := "Invalid response from server." }
            | some result =>
                if jsFalsy result then
                  Except.ok { ui with verdict := "Invalid response from server." }
                else
                  let flagged := jsGet result "flagged"
                  let categories := jsGet result "categories"
                  let ui1 := { ui with
                    verdict :=
                      if optTruthy flagged then "🚨 Hate / Toxic Content Detected"
                      else "✅ Content Appears Safe" }
                  do
                    let vHate ← jsGetOpt categories "hate"
                    let bars1 := { ui1.bars with
                      hate := updateCategory ui1.bars.hate vHate }
                    let vHar ← jsGetOpt categories "harassment"
                    let bars2 := { bars1 with
                      harassment := updateCategory bars1.harassment vHar }
                    let vSelf ← jsGetOpt categories "self-harm"
                    let bars3 := { bars2 with
                      selfHarm := updateCategory bars2.selfHarm vSelf }
                    let vSex ← jsGetOpt categories "sexual"
                    let bars4 := { bars3 with
                      sexual := updateCategory bars3.sexual vSex }
                    let vViol ← jsGetOpt categories "violence"
                    let bars5 := { bars4 with
                      violence := updateCategory bars4.violence vViol }
                    Except.ok { ui1 with bars := bars5, resultBoxDisplay := "block" }

/-- `showLoader` of `src/app.js`, lines 109–111. -/
def showLoader (visible : Bool) (ui : UIState) : UIState :=
  { ui with loaderDisplay := if visible then "block" else "none" }

/-- `resetUI` of `src/app.js`, lines 113–123 (no background-color
reset, unlike the richer script). -/
def resetUI (ui : UIState) : UIState :=
  let resetBar : Option Bar → Option Bar :=
    Option.map (fun b => { b with width := "0%", text := "" })
  { ui with
    verdict := ""
    resultBoxDisplay := "none"
    bars := { hate := resetBar ui.bars.hate
              harassment := resetBar ui.bars.harassment
              selfHarm := resetBar ui.bars.selfHarm
              sexual := resetBar ui.bars.sexual
              violence := resetBar ui.bars.violence } }

/-- The generic verdict the `src/app.js` click listener renders for every
thrown error (line 43). -/
def genericErrorVerdict : String := "⚠️ Error analyzing text. Try again."

/-- The `analyzeBtn` click listener of `src/app.js`, lines 27–47: trim,
alert and return on empty input (there is no maximum-length check), show
the loader, reset the UI, run `analyzeText` into `processApiResponse`,
render the one generic verdict on any thrown error, and hide the loader
in `finally`.  The button is never disabled by this script. -/
def click (inputValue : String) (ev : TransportEvent) (ui : UIState) : ClickResult :=
  let text := jsTrim inputValue
  if text = "" then
    { ui := ui, alerts := ["Please enter some text to analyze."],
      networkCalled := false, sentText := none }
  else
    let ui1 := resetUI (showLoader true ui)
    let run := analyzeText text ev
    let ui2 :=
      match run.result with
      | Except.ok data =>
          match processApiResponse data ui1 with
          | Except.ok u => u
          | Except.error _ => { ui1 with verdict := genericErrorVerdict }
      | Except.error _ => { ui1 with verdict := genericErrorVerdict }
    let ui3 := showLoader false ui2
    { ui := ui3, alerts := [], networkCalled := true, sentText := some text }

end AppJs

/-- Decidable equality for `Except` outcomes, used to evaluate concrete
runs of the embedded functions. -/
instance {ε α : Type} [DecidableEq ε] [DecidableEq α] : DecidableEq (Except ε α) :=
  fun x y =>
    match x, y with
    | Except.ok a, Except.ok b =>
        if h : a = b then isTrue (by rw [h])
        else isFalse (fun hh => h (Except.ok.inj hh))
    | Except.error a, Except.error b =>
        if h : a = b then isTrue (by rw [h])
        else isFalse (fun hh => h (Except.error.inj hh))
    | Except.ok _, Except.error _ => isFalse (fun hh => Except.noConfusion hh)
    | Except.error _, Except.ok _ => isFalse (fun hh => Except.noConfusion hh)

/-- A fresh category bar element (neutral width, text and colour). -/
def blankBar : Bar := { width := "0%", text := "", backgroundColor := "#cbd5e1" }

/-- A concrete initial DOM state with all five bar elements present. -/
def uiInit : UIState :=
  { loaderDisplay := "none", buttonDisabled := false, buttonHTML := "Analyze Text",
    verdict := "", resultBoxDisplay := "none",
    bars := { hate := some blankBar, harassment := some blankBar,
              selfHarm := some blankBar, sexual := some blankBar,
              violence := some blankBar } }

/-- The `category_scores` object of the spec's well-formed example, with
`hate` score `0.92` (`92/100`). -/
def goodScores : Json :=
  Json.obj [("hate", Json.num (mkRat 92 100)), ("harassment", Json.num (mkRat 5 100)),
    ("self-harm", Json.num (mkRat 1 100)), ("sexual", Json.num (mkRat 2 100)),
    ("violence", Json.num (mkRat 3 100))]

/-- The boolean `categories` object of the spec's well-formed example,
with `hate` flagged. -/
def goodCategories : Json :=
  Json.obj [("hate", Json.bool true), ("harassment", Json.bool false),
    ("self-harm", Json.bool false), ("sexual", Json.bool false),
    ("violence", Json.bool false)]

/-- `results[0]` of the spec's well-formed example response. -/
def goodResult0 : Json :=
  Json.obj [("flagged", Json.bool true), ("categories", goodCategories),
    ("category_scores", goodScores)]

/-- The spec's well-formed example response body
`{"results":[{"flagged":true,"categories":{...},"category_scores":{...}}]}`. -/
def goodBody : Json := Json.obj [("results", Json.arr [goodResult0])]

/-- The DOM state `processApiResponse` of the richer script produces from
`goodBody` starting at `uiInit`. -/
def goodUI : UIState :=
  { loaderDisplay := "none", buttonDisabled := false, buttonHTML := "Analyze Text",
    verdict := P0.harmfulVerdict, resultBoxDisplay := "block",
    bars := { hate := some { width := "92%", text := "⚠️ 92% - FLAGGED",
                             backgroundColor := "#ef4444" },
              harassment := some { width := "5%", text := "5% - Low",
                                   backgroundColor := "#10b981" },
              selfHarm := some { width := "2%", text := "1% - Low",
                                 backgroundColor := "#10b981" },
              sexual := some { width := "2%", text := "2% - Low",
                               backgroundColor := "#10b981" },
              violence := some { width := "3%", text := "3% - Low",
                                 backgroundColor := "#10b981" } } }

/-- The transport event has produced no response when the abort timer
with bound `T` fires. -/
def noReplyWithin (T : Nat) : TransportEvent → Prop
  | TransportEvent.arrives t _ => T ≤ t
  | TransportEvent.netFail t => T ≤ t
  | TransportEvent.never => True

/-- The generic status-derived server message always starts with `S`. -/
lemma serverGeneric_head (x : String) :
    ("Server error: " ++ x).data.head? = some 'S' := by
  cases x with
  | mk xs => rfl

/-- The connectivity message differs from every generic status-derived
server message. -/
lemma connectError_ne_serverGeneric (x : String) :
    P0.connectError ≠ JsError.mk "Error" ("Server error: " ++ x) := by
  intro h
  have h1 : P0.connectError.message.data.head? = ("Server error: " ++ x).data.head? :=
    congrArg (fun e => e.message.data.head?) h
  rw [serverGeneric_head x] at h1
  exact absurd h1 (by decide)

/-- C1: if the moderation endpoint sends no response within the
configured 30000 ms timeout (`CONFIG.REQUEST_TIMEOUT`), the richer
script's `analyzeText` aborts the in-flight request and fails with the
timeout error (the spec's `TimeoutError`).  The response `resp` inside a
late `arrives` event is universally quantified, so the outcome never
depends on a late response's contents: a late response is never
processed. -/
theorem timeout_aborts_and_raises (text : String) (ev : TransportEvent)
    (h : noReplyWithin CONFIG.REQUEST_TIMEOUT ev) :
    (P0.analyzeText text ev).aborted = true ∧
      (P0.analyzeText text ev).result = Except.error P0.timeoutError := by
  cases ev with
  | arrives t resp =>
      have hle : CONFIG.REQUEST_TIMEOUT ≤ t := h
      have hlt : ¬ t < CONFIG.REQUEST_TIMEOUT := Nat.not_lt.mpr hle
      constructor
      · simp [P0.analyzeText, evAborted, hle]
      · simp [P0.analyzeText, P0.fetchTry, hlt, abortError, P0.timeoutError]
  | netFail t =>
      have hle : CONFIG.REQUEST_TIMEOUT ≤ t := h
      have hlt : ¬ t < CONFIG.REQUEST_TIMEOUT := Nat.not_lt.mpr hle
      constructor
      · simp [P0.analyzeText, evAborted, hle]
      · simp [P0.analyzeText, P0.fetchTry, hlt, abortError, P0.timeoutError]
  | never =>
      constructor
      · rfl
      · rfl

/-- C1 witness: a response carrying a perfectly well-formed body that
arrives exactly at the 30000 ms bound is disregarded: the call aborts and
fails with the timeout error. -/
theorem timeout_aborts_and_raises_witness :
    noReplyWithin CONFIG.REQUEST_TIMEOUT
        (TransportEvent.arrives 30000 ⟨200, some goodBody⟩) ∧
      (P0.analyzeText "some text"
          (TransportEvent.arrives 30000 ⟨200, some goodBody⟩)).aborted = true ∧
      (P0.analyzeText "some text"
          (TransportEvent.arrives 30000 ⟨200, some goodBody⟩)).result =
        Except.error P0.timeoutError :=
  ⟨Nat.le_refl 30000,
   timeout_aborts_and_raises "some text"
     (TransportEvent.arrives 30000 ⟨200, some goodBody⟩) (Nat.le_refl 30000)⟩

/-- C3: an input that is empty after trimming is rejected with the
validation alert (the spec's `ValidationError`), the network is never
called, and the DOM state is returned unchanged. -/
theorem empty_input_validation (input : String) (ev : TransportEvent) (ui : UIState)
    (h : jsTrim input = "") :
    P0.handleAnalyzeClick input ev ui =
      { ui := ui, alerts := [P0.emptyAlert], networkCalled := false,
        sentText := none } := by
  simp [P0.handleAnalyzeClick, h]

/-- C3 witness: a whitespace-only input alerts and never reaches the
network. -/
theorem empty_input_validation_witness :
    jsTrim "   " = "" ∧
      P0.handleAnalyzeClick "   " TransportEvent.never uiInit =
        { ui := uiInit, alerts := [P0.emptyAlert], networkCalled := false,
          sentText := none } :=
  ⟨by decide, empty_input_validation "   " TransportEvent.never uiInit (by decide)⟩

/-- C7: the spec's well-formed example response renders the flagged
verdict (overall `flagged = true`), and the hate score extracted from
`category_scores` is exactly `0.92` (`92/100`), shown as the 92% flagged
hate bar. -/
theorem wellformed_success_result :
    P0.processApiResponse goodBody uiInit = Except.ok goodUI ∧
      goodUI.verdict = P0.harmfulVerdict ∧
      optTruthy (jsGet goodResult0 "flagged") = true ∧
      toNumber (jsGet goodScores "hate") = some (mkRat 92 100) ∧
      jsRoundTimes100 (mkRat 92 100) = 92 ∧
      goodUI.bars.hate =
        some { width := "92%", text := "⚠️ 92% - FLAGGED",
               backgroundColor := "#ef4444" } :=
  ⟨by decide, rfl, by decide, by decide, by decide, rfl⟩

/-- C5: a transport failure before the timeout fires makes the richer
script's `analyzeText` fail with the connectivity error (the spec's
`ConnectivityError`) without aborting, and that error is distinct from
the timeout error and from every generic status-derived server error. -/
theorem transport_failure_connectivity (text : String) (t : Nat)
    (h : t < CONFIG.REQUEST_TIMEOUT) :
    (P0.analyzeText text (TransportEvent.netFail t)).result =
        Except.error P0.connectError ∧
      (P0.analyzeText text (TransportEvent.netFail t)).aborted = false ∧
      P0.connectError ≠ P0.timeoutError ∧
      ∀ status : Nat,
        P0.connectError ≠ JsError.mk "Error" ("Server error: " ++ toString status) := by
  refine ⟨?_, ?_, by decide, fun status => connectError_ne_serverGeneric (toString status)⟩
  · simp [P0.analyzeText, P0.fetchTry, h, fetchFailError, P0.connectError, strIncludes]
    decide
  · have : ¬ CONFIG.REQUEST_TIMEOUT ≤ t := Nat.not_le.mpr h
    simp [P0.analyzeText, evAborted, this]

/-- C5 witness: a connection failure one second in yields the
connectivity error. -/
theorem transport_failure_connectivity_witness :
    1000 < CONFIG.REQUEST_TIMEOUT ∧
      (P0.analyzeText "abc" (TransportEvent.netFail 1000)).result =
        Except.error P0.connectError :=
  ⟨by decide, (transport_failure_connectivity "abc" 1000 (by decide)).1⟩

/-- On a non-success status before the timeout, the result of
`analyzeText` is the non-ok throw of the try block fed through the catch
block's rewriting. -/
lemma analyzeText_nonok (text : String) (t : Nat) (resp : Response)
    (h1 : t < CONFIG.REQUEST_TIMEOUT) (h2 : respOk resp = false) :
    (P0.analyzeText text (TransportEvent.arrives t resp)).result =
      match P0.serverThrow resp.body resp.status with
      | Except.ok j => Except.ok j
      | Except.error e =>
          if e.name = "AbortError" then Except.error P0.timeoutError
          else if strIncludes e.message "Failed to fetch" then
            Except.error P0.connectError
          else Except.error e := by
  simp [P0.analyzeText, P0.fetchTry, h1, h2]

/-- C4 (amended): on a non-success status before the timeout, the richer
script's `analyzeText` fails as follows.  A parsed body that is JSON
`null` throws the `TypeError` from reading `.error` of `null`, which the
catch block rethrows unchanged.  Any other body (with `{}` substituted
when there is no parsable body) produces the message
`errorData.error || "Server error: <status>"` — the stringified truthy
server-supplied `error` value when there is one, otherwise the generic
status-derived message, which is the only case carrying the status —
except that a message containing `Failed to fetch` is reclassified as
the connectivity error by the catch block. -/
theorem server_error_mapping (text : String) (t : Nat) (resp : Response)
    (h1 : t < CONFIG.REQUEST_TIMEOUT) (h2 : respOk resp = false) :
    (P0.analyzeText text (TransportEvent.arrives t resp)).result =
      match resp.body.getD (Json.obj []) with
      | Json.null =>
          Except.error
            ⟨"TypeError", "Cannot read properties of null (reading error)"⟩
      | errJ =>
          if strIncludes (serverErrorMessage (jsGet errJ "error") resp.status)
              "Failed to fetch" then
            Except.error P0.connectError
          else
            Except.error
              ⟨"Error", serverErrorMessage (jsGet errJ "error") resp.status⟩ := by
  rw [analyzeText_nonok text t resp h1 h2]
  simp only [P0.serverThrow]
  cases hb : resp.body.getD (Json.obj []) <;> rfl

/-- C4 witness: the spec's test case — status 500 with no body — yields
the generic status-derived message `Server error: 500`. -/
theorem server_error_mapping_witness :
    1000 < CONFIG.REQUEST_TIMEOUT ∧
      respOk ⟨500, none⟩ = false ∧
      (P0.analyzeText "abc" (TransportEvent.arrives 1000 ⟨500, none⟩)).result =
        Except.error ⟨"Error", "Server error: 500"⟩ :=
  ⟨by decide, by decide,
   (server_error_mapping "abc" 1000 ⟨500, none⟩ (by decide) (by decide)).trans
     (by rfl)⟩

/-- C4 counterexample: a non-success response whose body supplies the
message `Failed to fetch` does not fail with a server error carrying the
status or that message — the catch block reclassifies it as the
connectivity error, so the claim's universal statement is false. -/
theorem server_error_hijacked_cex :
    (P0.analyzeText "abc"
        (TransportEvent.arrives 1000
          ⟨500, some (Json.obj [("error", Json.str "Failed to fetch")])⟩)).result =
      Except.error P0.connectError ∧
      P0.connectError.message ≠ "Failed to fetch" ∧
      strIncludes P0.connectError.message "500" = false :=
  ⟨by rfl, by decide, by decide⟩

/-- The condition `!data || !data.results || !data.results[0]` guarding
`processApiResponse` in the richer script (line 152), as one predicate. -/
def P0.malformedShape (j : Json) : Bool :=
  jsFalsy j || optFalsy (jsGet j "results") ||
    (match jsGet j "results" with
     | none => true
     | some r => optFalsy (jsIndex r 0))

/-- A status-200 body whose `results[0]` carries `categories` and
`category_scores` but no `flagged` field. -/
def flaggedlessResult0 : Json :=
  Json.obj [("categories", goodCategories), ("category_scores", goodScores)]

/-- A response body missing only `results[0].flagged`. -/
def flaggedlessBody : Json := Json.obj [("results", Json.arr [flaggedlessResult0])]

/-- The DOM state the richer script's `processApiResponse` produces from
`flaggedlessBody`: a successful render with the safe verdict. -/
def flaggedlessUI : UIState :=
  { goodUI with verdict := P0.safeVerdict }

/-- C2 counterexample: a success body in which the expected component
`results[0].flagged` is absent does not fail with the malformed-response
error — `processApiResponse` succeeds and renders the safe verdict,
because the shape check only inspects `results` and `results[0]`. -/
theorem missing_flagged_not_rejected_cex :
    P0.processApiResponse flaggedlessBody uiInit = Except.ok flaggedlessUI ∧
      flaggedlessUI.verdict = P0.safeVerdict ∧
      jsGet flaggedlessResult0 "flagged" = none :=
  ⟨by decide, rfl, by rfl⟩

/-- C2 (amended): the malformed-response error (the spec's
`MalformedResponseError`) is raised whenever the parsed success body, its
`results` field, or `results[0]` is missing or falsy — in particular a
status-200 body missing `results` yields it; the components inside
`results[0]` are not checked by the guard. -/
theorem malformed_body_rejected (j : Json) (ui : UIState)
    (h : P0.malformedShape j = true) :
    P0.processApiResponse j ui = Except.error P0.invalidFormatError := by
  by_cases h1 : jsFalsy j = true
  · simp [P0.processApiResponse, h1]
  · cases hr : jsGet j "results" with
    | none => simp [P0.processApiResponse, h1, hr]
    | some r =>
        by_cases h2 : jsFalsy r = true
        · simp [P0.processApiResponse, h1, hr, h2]
        · cases hi : jsIndex r 0 with
          | none => simp [P0.processApiResponse, h1, hr, h2, hi]
          | some x =>
              by_cases h3 : jsFalsy x = true
              · simp [P0.processApiResponse, h1, hr, h2, hi, h3]
              · exfalso
                simp [P0.malformedShape, hr, optFalsy, h1, h2, hi, h3] at h

/-- C2 witness: a status-200 response whose object body has no `results`
field is rejected with the malformed-response error, end to end: the
click handler renders the malformed-response message. -/
theorem malformed_body_rejected_witness :
    P0.malformedShape (Json.obj []) = true ∧
      P0.processApiResponse (Json.obj []) uiInit =
        Except.error P0.invalidFormatError ∧
      (P0.handleAnalyzeClick "hello"
          (TransportEvent.arrives 100 ⟨200, some (Json.obj [])⟩) uiInit).ui.verdict =
        "⚠️ Error: " ++ P0.invalidFormatError.message :=
  ⟨by decide, malformed_body_rejected (Json.obj []) uiInit (by decide), by decide⟩

/-- C6: the input listener truncates the textarea value to the configured
maximum of 2000 characters, and every text the click handler actually
submits to the network is at most that maximum long (over-long trimmed
input is rejected before submission). -/
theorem request_text_bounded (v input : String) (ev : TransportEvent) (ui : UIState) :
    (P0.handleInput v).length ≤ CONFIG.MAX_INPUT_LENGTH ∧
      ∀ s, (P0.handleAnalyzeClick input ev ui).sentText = some s →
        s.length ≤ CONFIG.MAX_INPUT_LENGTH := by
  constructor
  · by_cases h : v.length > CONFIG.MAX_INPUT_LENGTH
    · simp only [P0.handleInput, if_pos h]
      show (v.data.take CONFIG.MAX_INPUT_LENGTH).length ≤ CONFIG.MAX_INPUT_LENGTH
      simp [List.length_take]
    · simpa [P0.handleInput, if_neg h] using Nat.le_of_not_lt h
  · intro s hs
    by_cases h1 : jsTrim input = ""
    · simp [P0.handleAnalyzeClick, h1] at hs
    · by_cases h2 : (jsTrim input).length > CONFIG.MAX_INPUT_LENGTH
      · simp [P0.handleAnalyzeClick, h1, h2] at hs
      · simp [P0.handleAnalyzeClick, h1, h2] at hs
        exact hs ▸ Nat.le_of_not_lt h2

/-- C6 witness: a submitted five-character input is within the bound, as
is the truncated value of the listener. -/
theorem request_text_bounded_witness :
    (P0.handleInput "check").length ≤ CONFIG.MAX_INPUT_LENGTH ∧
      (P0.handleAnalyzeClick "hello" TransportEvent.never uiInit).sentText =
        some "hello" ∧
      ("hello" : String).length ≤ CONFIG.MAX_INPUT_LENGTH :=
  ⟨(request_text_bounded "check" "hello" TransportEvent.never uiInit).1,
   by decide,
   (request_text_bounded "check" "hello" TransportEvent.never uiInit).2 "hello"
     (by decide)⟩

/-- C8: whenever a click actually reaches the network, the `finally`
block of the richer script's handler leaves the loader hidden and the
trigger button re-enabled with its idle label, whatever the outcome of
the call (success, any failure kind, or the aborted/timeout case). -/
theorem completion_resets_indicator (input : String) (ev : TransportEvent) (ui : UIState)
    (h : (P0.handleAnalyzeClick input ev ui).networkCalled = true) :
    (P0.handleAnalyzeClick input ev ui).ui.loaderDisplay = "none" ∧
      (P0.handleAnalyzeClick input ev ui).ui.buttonDisabled = false ∧
      (P0.handleAnalyzeClick input ev ui).ui.buttonHTML = "Analyze Text" := by
  by_cases h1 : jsTrim input = ""
  · simp [P0.handleAnalyzeClick, h1] at h
  · by_cases h2 : (jsTrim input).length > CONFIG.MAX_INPUT_LENGTH
    · simp [P0.handleAnalyzeClick, h1, h2] at h
    · simp [P0.handleAnalyzeClick, h1, h2, P0.setButtonState, P0.showLoader]

/-- C8 witness: a submission that times out (the cancellation outcome)
still ends with the loader hidden and the button re-enabled. -/
theorem completion_resets_indicator_witness :
    (P0.handleAnalyzeClick "hi" TransportEvent.never uiInit).networkCalled = true ∧
      (P0.handleAnalyzeClick "hi" TransportEvent.never uiInit).ui.loaderDisplay =
        "none" ∧
      (P0.handleAnalyzeClick "hi" TransportEvent.never uiInit).ui.buttonDisabled =
        false ∧
      (P0.handleAnalyzeClick "hi" TransportEvent.never uiInit).ui.buttonHTML =
        "Analyze Text" :=
  ⟨by decide, completion_resets_indicator "hi" TransportEvent.never uiInit (by decide)⟩

/-- C10: a click whose trimmed input fails validation (empty, or longer
than the maximum) is atomic — it issues exactly one alert and returns
with the DOM state identical to the state before the click, without
invoking `analyzeText`. -/
theorem validation_failure_atomic (input : String) (ev : TransportEvent) (ui : UIState)
    (h : jsTrim input = "" ∨ (jsTrim input).length > CONFIG.MAX_INPUT_LENGTH) :
    (P0.handleAnalyzeClick input ev ui).ui = ui ∧
      (P0.handleAnalyzeClick input ev ui).networkCalled = false ∧
      (P0.handleAnalyzeClick input ev ui).sentText = none ∧
      (P0.handleAnalyzeClick input ev ui).alerts.length = 1 := by
  by_cases h1 : jsTrim input = ""
  · simp [P0.handleAnalyzeClick, h1]
  · rcases h with h | h
    · exact absurd h h1
    · simp [P0.handleAnalyzeClick, h1, h]

/-- A 2001-character input, one over the configured maximum. -/
def longInput : String := String.mk (List.replicate 2001 'a')

/-- Dropping whitespace from a nonempty all-`a` list changes nothing. -/
lemma dropWhile_ws_replicate (n : Nat) :
    (List.replicate (n + 1) 'a').dropWhile Char.isWhitespace =
      List.replicate (n + 1) 'a' := by
  rw [List.replicate_succ, List.dropWhile_cons,
    show Char.isWhitespace 'a' = false from rfl]
  simp [List.replicate_succ]

/-- The length of a packed character list is the list's length. -/
lemma stringMk_length (l : List Char) : (String.mk l).length = l.length := rfl

/-- The 2001-character input is unchanged by trimming. -/
lemma longInput_trim_eq : jsTrim longInput = longInput := by
  show String.mk ((((List.replicate (2000 + 1) 'a').dropWhile
      Char.isWhitespace).reverse.dropWhile Char.isWhitespace).reverse) = longInput
  rw [dropWhile_ws_replicate, List.reverse_replicate, dropWhile_ws_replicate,
    List.reverse_replicate]
  rfl

/-- C10 witness: an over-long input leaves a non-trivial starting DOM
state untouched, alerts once, and never calls the network. -/
theorem validation_failure_atomic_witness :
    (jsTrim longInput).length > CONFIG.MAX_INPUT_LENGTH ∧
      (P0.handleAnalyzeClick longInput TransportEvent.never uiInit).ui = uiInit ∧
      (P0.handleAnalyzeClick longInput TransportEvent.never uiInit).networkCalled =
        false ∧
      (P0.handleAnalyzeClick longInput TransportEvent.never uiInit).sentText = none ∧
      (P0.handleAnalyzeClick longInput TransportEvent.never
          uiInit).alerts.length = 1 := by
  have hgt : (jsTrim longInput).length > CONFIG.MAX_INPUT_LENGTH := by
    rw [longInput_trim_eq]
    show (String.mk (List.replicate 2001 'a')).length > CONFIG.MAX_INPUT_LENGTH
    rw [stringMk_length, List.length_replicate]
    decide
  have main :=
    validation_failure_atomic longInput TransportEvent.never uiInit (Or.inr hgt)
  exact ⟨hgt, main.1, main.2⟩

/-- C9: the two `analyzeText` implementations are not equivalent.  On a
well-formed response arriving 15 seconds in — after the 10000 ms bound of
`src/app.js` but before the 30000 ms bound of `src/unnamed/part_000` —
the `src/app.js` version aborts the request and fails with the raw
`AbortError` while the richer version succeeds with the parsed body.
Moreover the `src/app.js` click listener renders one and the same generic
verdict for the timeout, server-error and transport-failure outcomes,
while the richer handler renders distinct messages per kind. -/
theorem implementations_diverge :
    (AppJs.analyzeText "abc"
        (TransportEvent.arrives 15000 ⟨200, some goodBody⟩)).aborted = true ∧
      (AppJs.analyzeText "abc"
          (TransportEvent.arrives 15000 ⟨200, some goodBody⟩)).result =
        Except.error abortError ∧
      (P0.analyzeText "abc"
          (TransportEvent.arrives 15000 ⟨200, some goodBody⟩)).aborted = false ∧
      (P0.analyzeText "abc"
          (TransportEvent.arrives 15000 ⟨200, some goodBody⟩)).result =
        Except.ok goodBody ∧
      AppJs.TIMEOUT_MS = 10000 ∧
      CONFIG.REQUEST_TIMEOUT = 30000 ∧
      (AppJs.click "hello" TransportEvent.never uiInit).ui.verdict =
        AppJs.genericErrorVerdict ∧
      (AppJs.click "hello" (TransportEvent.arrives 100 ⟨500, none⟩) uiInit).ui.verdict =
        AppJs.genericErrorVerdict ∧
      (AppJs.click "hello" (TransportEvent.netFail 100) uiInit).ui.verdict =
        AppJs.genericErrorVerdict ∧
      (P0.handleAnalyzeClick "hello" TransportEvent.never uiInit).ui.verdict ≠
        (P0.handleAnalyzeClick "hello" (TransportEvent.arrives 100 ⟨500, none⟩)
            uiInit).ui.verdict :=
  ⟨by decide, by rfl, by decide, by rfl, rfl, rfl, by decide, by decide, by decide,
   by decide⟩
